import Mathlib

/-!
Verification of the photo-cache reconciliation engine
(src/modules/photo_editor/photo_*_engine.py, src/utils/filer.py).

The Python code is shallowly embedded: database tables become Lean lists,
query results and filesystem scans become explicit `Except`-valued inputs,
and every raised-and-caught exception becomes an explicit `Except` branch.
Timestamps are modelled as integers (seconds); a max-age of `h` hours is
`h * 3600` seconds.
-/

/-- Numeric value of a decimal digit character, as in parsing `\d+`. -/
def digitVal (c : Char) : Nat := c.toNat - 48

/-- Value of a list of decimal digit characters, most significant first
(models Python `int(...)` on the matched digit group). -/
def digitsToNat (cs : List Char) : Nat :=
  cs.foldl (fun a c => a * 10 + digitVal c) 0

/-- Folding digits onto an accumulator, used to reason about `digitsToNat`. -/
def valFrom (a : Nat) (cs : List Char) : Nat :=
  cs.foldl (fun b c => b * 10 + digitVal c) a

/-- Decimal rendering of a natural number, least significant digit computed
first, with explicit fuel (the fuel `n` always suffices for input `n`).
Models Python string formatting of a non-negative int, e.g. `f"{uid}"`. -/
def natToCharsFuel : Nat → Nat → List Char → List Char
  | 0, n, acc => Char.ofNat (48 + n % 10) :: acc
  | fuel + 1, n, acc =>
    if n < 10 then Char.ofNat (48 + n % 10) :: acc
    else natToCharsFuel fuel (n / 10) (Char.ofNat (48 + n % 10) :: acc)

/-- Decimal rendering of a natural number as a string
(models Python `f"{n}"` for a non-negative database integer). -/
def natToString (n : Nat) : String := String.mk (natToCharsFuel n n [])

/-- `re.search(r"\[(\d+)\]$", s)` on the reversed character list:
the final character must be `]`, preceded by one or more digits,
preceded by `[`. Returns the digit group value. -/
def parseTrailingUidRev (cs : List Char) : Option Nat :=
  match cs with
  | [] => none
  | c :: rest =>
    if c = ']' then
      let ds := rest.takeWhile Char.isDigit
      if ds = [] then none
      else
        match rest.dropWhile Char.isDigit with
        | [] => none
        | b :: _ => if b = '[' then some (digitsToNat ds.reverse) else none
    else none

/-- Models `re.search(r"\[(\d+)\]$", s)` followed by `int(match.group(1))`:
the trailing bracketed integer of a composite label, if present. -/
def parseTrailingUid (s : String) : Option Nat :=
  parseTrailingUidRev s.data.reverse

/-- Models unanchored `re.search(r"\[(\d+)\]", s)` followed by
`int(match.group(1))`: the leftmost bracketed integer anywhere in the
label, if present. -/
def findBracketUid : List Char → Option Nat
  | [] => none
  | c :: rest =>
    if c = '[' then
      let ds := rest.takeWhile Char.isDigit
      if ds = [] then findBracketUid rest
      else
        match rest.dropWhile Char.isDigit with
        | [] => findBracketUid rest
        | b :: _ => if b = ']' then some (digitsToNat ds) else findBracketUid rest
    else findBracketUid rest

/-- Models Python `PurePath(name).suffix` for a bare file name: the
substring from the last dot, unless that dot is the first or the last
character of the name, in which case the suffix is empty. -/
def pathSuffix (name : String) : String :=
  let rcs := name.data.reverse
  let afterDot := rcs.takeWhile (fun c => c ≠ '.')
  match rcs.dropWhile (fun c => c ≠ '.') with
  | [] => ""
  | _ :: [] => ""
  | _ :: _ :: _ => if afterDot = [] then "" else String.mk ('.' :: afterDot.reverse)

/-- Lower-casing a string character-wise, models Python `str.lower()`
for the ASCII names involved here. -/
def strToLower (s : String) : String := String.mk (s.data.map Char.toLower)

/-- `Filer.extract_extension`: `Path(filename).suffix`, with the empty
suffix mapped to `None`. The returned extension keeps its leading dot. -/
def extract_extension (filename : String) : Option String :=
  let ext := pathSuffix filename
  if ext = "" then none else some ext

/-- `Filer.filepath_formatter`: append `.extension` unless the path already
carries that extension (case-insensitively, accepting the extension given
with or without its leading dot); a falsy extension leaves the path alone. -/
def filepath_formatter (filepath : String) (extension : Option String) : String :=
  match extension with
  | none => filepath
  | some ext =>
    if ext = "" then filepath
    else if strToLower (pathSuffix filepath) = "." ++ strToLower ext
        ∨ strToLower (pathSuffix filepath) = strToLower ext then filepath
    else filepath ++ "." ++ ext

/-- The shared extension-normalization step of
`update_worker_photo_filename`, `update_contract_photo_filename` and
`update_alter_photo_filename` (they are textually identical): if the new
filename has no extension and `append_gif` is set, append `.gif`; with no
extension and `append_gif` unset, fall back to the configured
`default_image_extension` setting, raising when that setting is absent;
finally run the filename through `filepath_formatter` unless the `.gif`
branch was taken. -/
def normalize_photo_filename_std (new_filename : String) (append_gif : Bool)
    (default_image_extension : Option String) : Except String String :=
  match extract_extension new_filename, append_gif with
  | none, true => Except.ok (new_filename ++ ".gif")
  | none, false =>
    match default_image_extension with
    | none => Except.error "Default image extension is not set in settings."
    | some ext =>
      if false && (ext == "gif") then Except.ok new_filename
      else Except.ok (filepath_formatter new_filename (some ext))
  | some ext, g =>
    if g && (ext == "gif") then Except.ok new_filename
    else Except.ok (filepath_formatter new_filename (some ext))

/-- The extension-normalization step of `update_ager_photo_filename`:
unlike the other three engines it has no `append_gif` branch for a missing
extension, so the configured default is always substituted (and its absence
always raises), regardless of `append_gif`. -/
def normalize_photo_filename_ager (new_filename : String) (append_gif : Bool)
    (default_image_extension : Option String) : Except String String :=
  match extract_extension new_filename with
  | none =>
    match default_image_extension with
    | none => Except.error "Default image extension is not set in settings."
    | some ext =>
      if append_gif && (ext == "gif") then Except.ok new_filename
      else Except.ok (filepath_formatter new_filename (some ext))
  | some ext =>
    if append_gif && (ext == "gif") then Except.ok new_filename
    else Except.ok (filepath_formatter new_filename (some ext))

/-- Splitting at the first `|`, as in
`recordname.split("|")[0]` / `"|".join(recordname.split("|")[1:])`:
returns the characters before the first bar, and, when a bar exists,
the characters after it. -/
def breakOnBar : List Char → List Char × Option (List Char)
  | [] => ([], none)
  | c :: rest =>
    if c = '|' then ([], some rest)
    else
      let p := breakOnBar rest
      (c :: p.1, p.2)

/-- The worker-name part of an alter `Recordname` (before the first `|`,
or the whole string when no bar is present). -/
def alterWorkerName (recordname : String) : String :=
  String.mk (breakOnBar recordname.data).1

/-- The description part of an alter `Recordname` (after the first `|`,
empty when no bar is present). -/
def alterDesc (recordname : String) : String :=
  match (breakOnBar recordname.data).2 with
  | none => ""
  | some d => String.mk d

/-- The composite alter label built by
`PhotoAltersEngine.fetch_alter_photo_record_cache_lists`:
`f"{worker_name}[{alter_uid}]"`, with `f"[{alter_desc}]"` appended after
the uid when the description is non-empty. -/
def assemble_alter_record (recordname : String) (alter_uid : Nat) : String :=
  let combined := alterWorkerName recordname ++ "[" ++ natToString alter_uid ++ "]"
  if alterDesc recordname = "" then combined
  else combined ++ "[" ++ alterDesc recordname ++ "]"

/-- The composite contract label built by
`PhotoContractEngine.fetch_contract_photo_record_cache_lists`:
`f"{worker_name}[{initials}][{contract_name}][{contract_uid}]"`. -/
def assemble_contract_record (worker_name fed_initials contract_name : String)
    (contract_uid : Nat) : String :=
  worker_name ++ "[" ++ fed_initials ++ "][" ++ contract_name ++ "]["
    ++ natToString contract_uid ++ "]"

/-- The composite ager label built by
`PhotoAgersEngine.fetch_ager_photo_record_cache_lists`:
`f"{worker_name}[Age@{trigger_age}][{ager_uid}]"`. -/
def assemble_ager_record (worker_name : String) (trigger_age ager_uid : Nat) : String :=
  worker_name ++ "[Age@" ++ natToString trigger_age ++ "]["
    ++ natToString ager_uid ++ "]"

/-- A `tblWorker` row as fetched by
`fetch_all_workers_specific_cols(["uid", "Name", "Picture"])`. -/
structure TblWorkerRow where
  uid : Nat
  Name : String
  Picture : String
deriving DecidableEq

/-- A `game_worker_photo_cache` row. -/
structure GameWorkerRow where
  game_worker_uid : Nat
  game_worker_name : String
  game_worker_photo_file : String
  game_worker_photo_status : String
deriving DecidableEq

/-- The worker-kind slice of the local cache store: whether the log table
exists, the log statuses in insertion (= timestamp) order, the
`local_worker_photo_cache` filenames and the `game_worker_photo_cache`
rows. -/
structure WorkerCacheState where
  logTableExists : Bool
  log : List String
  localRows : List String
  gameRows : List GameWorkerRow
deriving DecidableEq

/-- `PhotoWorkerEngine._rebuild_worker_photo_cache`: drop the three worker
tables, recreate them empty, insert one `created` log row. -/
def rebuild_worker_photo_cache (_s : WorkerCacheState) : WorkerCacheState :=
  { logTableExists := true, log := ["created"], localRows := [], gameRows := [] }

/-- `PhotoWorkerEngine.build_local_worker_photo_cache`: one
`local_worker_photo_cache` row per scanned filename. -/
def build_local_worker_photo_cache (s : WorkerCacheState) (files : List String) :
    WorkerCacheState :=
  { s with localRows := s.localRows ++ files }

/-- `PhotoWorkerEngine._build_game_worker_photo_cache`: one
`game_worker_photo_cache` row per authoritative worker, status `new`. -/
def build_game_worker_photo_cache (s : WorkerCacheState) (ws : List TblWorkerRow) :
    WorkerCacheState :=
  { s with gameRows := s.gameRows ++ ws.map (fun w =>
      { game_worker_uid := w.uid, game_worker_name := w.Name,
        game_worker_photo_file := w.Picture, game_worker_photo_status := "new" }) }

/-- `PhotoWorkerEngine._fetch_worker_photo_lists`: fetch the directory scan
and the authoritative worker list, raising when either fetch fails or
either list is empty (`photo_list_check`). -/
def fetch_worker_photo_lists (dirScan : Except String (List String))
    (dbFetch : Except String (List TblWorkerRow)) :
    Except String (List String × List TblWorkerRow) :=
  match dirScan with
  | Except.error e => Except.error e
  | Except.ok ds =>
    if ds.length = 0 then Except.error "Worker photo list from dir is empty"
    else
      match dbFetch with
      | Except.error e => Except.error e
      | Except.ok ws =>
        if ws.length = 0 then Except.error "Worker photo list from db is empty"
        else Except.ok (ds, ws)

/-- `PhotoWorkerEngine._reset_worker_photo_cache`: rebuild the schema, then
fetch both lists and populate. The whole body sits in a
`try/except` whose handler only logs, so every failure after the rebuild
is swallowed and the function always returns normally (its docstring
promises to raise, but the code does not re-raise). -/
def reset_worker_photo_cache (s : WorkerCacheState)
    (dirScan : Except String (List String))
    (dbFetch : Except String (List TblWorkerRow)) : WorkerCacheState :=
  let s1 := rebuild_worker_photo_cache s
  match fetch_worker_photo_lists dirScan dbFetch with
  | Except.error _ => s1
  | Except.ok (ds, ws) => build_game_worker_photo_cache (build_local_worker_photo_cache s1 ds) ws

/-- Appending one log row to the worker log. -/
def appendWorkerLog (s : WorkerCacheState) (status : String) : WorkerCacheState :=
  { s with log := s.log ++ [status] }

/-- `PhotoWorkerEngine._verify_worker_photo_cache_is_ready`: false when the
log table is missing, when it has no rows, when the `photo_cache_max_age`
setting or the newest timestamp fails to parse (every exception is caught
and turned into false); otherwise true exactly when the newest log
timestamp is not older than `max_age` hours before `now`.
`newestLogTimestamp` is `none` when the log has no rows, and
`some none` when the newest row exists but its timestamp does not parse. -/
def verify_worker_photo_cache_is_ready (logTableExists : Bool)
    (newestLogTimestamp : Option (Option Int)) (maxAgeHours : Option Int)
    (now : Int) : Bool :=
  if !logTableExists then false
  else
    match newestLogTimestamp with
    | none => false
    | some parsed =>
      match maxAgeHours with
      | none => false
      | some maxAge =>
        match parsed with
        | none => false
        | some ts => if ts < now - maxAge * 3600 then false else true

/-- `PhotoWorkerEngine._worker_photo_cache_check`: false when `skip_check`
is set or the readiness check fails, true otherwise; its own `except`
handler also returns false, so the check never raises. -/
def worker_photo_cache_check (skip_check : Bool) (logTableExists : Bool)
    (newestLogTimestamp : Option (Option Int)) (maxAgeHours : Option Int)
    (now : Int) : Bool :=
  let ready := verify_worker_photo_cache_is_ready logTableExists newestLogTimestamp
    maxAgeHours now
  if skip_check || !ready then false else true

/-- `PhotoWorkerEngine.worker_photo_cache_init`: when the cache check
fails, run the (exception-swallowing) reset; always returns `True` and
appends no log row of its own. -/
def worker_photo_cache_init (skip_check : Bool) (s : WorkerCacheState)
    (newestLogTimestamp : Option (Option Int)) (maxAgeHours : Option Int) (now : Int)
    (dirScan : Except String (List String))
    (dbFetch : Except String (List TblWorkerRow)) :
    Except String (Bool × WorkerCacheState) :=
  let cache_check := worker_photo_cache_check skip_check s.logTableExists
    newestLogTimestamp maxAgeHours now
  if !cache_check then Except.ok (true, reset_worker_photo_cache s dirScan dbFetch)
  else Except.ok (true, s)

/-- `PhotoWorkerEngine.refresh_worker_photo_cache`: scan the directory
(raising when the scan fails or finds nothing), run the reset, and append
a `refreshed` log row. The `except` fallback around the reset (rebuild,
repopulate local files only, append `partial_refresh`) is unreachable
because `reset_worker_photo_cache` swallows its own exceptions. -/
def refresh_worker_photo_cache (s : WorkerCacheState)
    (dirScan : Except String (List String))
    (dbFetch : Except String (List TblWorkerRow)) :
    Except String WorkerCacheState :=
  match dirScan with
  | Except.error e => Except.error e
  | Except.ok localFiles =>
    if localFiles.length = 0 then Except.error "No local worker photo files found"
    else
      let s1 := reset_worker_photo_cache s dirScan dbFetch
      Except.ok (appendWorkerLog s1 "refreshed")

/-- `PhotoWorkerEngine.fetch_worker_filename_from_cache`: the photo file of
the first cache row whose `game_worker_name` equals the given name, or the
empty string when no row matches. -/
def fetch_worker_filename_from_cache (cacheRows : List GameWorkerRow)
    (worker_name : String) : String :=
  match cacheRows.filter (fun r => r.game_worker_name = worker_name) with
  | [] => ""
  | r :: _ => r.game_worker_photo_file

/-- `PhotoWorkerEngine.update_worker_photo_filename`: normalize the new
filename, then update every local-cache row and every authoritative
`tblWorker` row whose *name* equals the given string. No uid is parsed
from the label and no format validation happens. -/
def update_worker_photo_filename (cacheRows : List GameWorkerRow)
    (dbRows : List TblWorkerRow) (worker_name new_filename : String)
    (append_gif : Bool) (default_image_extension : Option String) :
    Except String (List GameWorkerRow × List TblWorkerRow) :=
  match normalize_photo_filename_std new_filename append_gif default_image_extension with
  | Except.error e => Except.error e
  | Except.ok updated =>
    Except.ok
      (cacheRows.map (fun r =>
        if r.game_worker_name = worker_name then
          { r with game_worker_photo_file := updated } else r),
       dbRows.map (fun w =>
        if w.Name = worker_name then { w with Picture := updated } else w))

/-- A `tblContract` row as fetched by
`fetch_all_contracts_specific_cols(["UID","FedUID","WorkerUID","Name","Picture"])`. -/
structure TblContractRow where
  UID : Nat
  FedUID : Nat
  WorkerUID : Nat
  Name : String
  Picture : String
deriving DecidableEq

/-- A `game_contract_photo_cache` row. -/
structure GameContractRow where
  game_contract_uid : Nat
  game_contract_fedid : Nat
  game_contract_recordname : String
  game_contract_worker_uid : Nat
  game_contract_photo_file : String
  game_contract_photo_status : String
deriving DecidableEq

/-- The contract-kind slice of the local cache store. -/
structure ContractCacheState where
  cacheTableExists : Bool
  rows : List GameContractRow
  log : List String
deriving DecidableEq

/-- `PhotoContractEngine._build_contract_photo_record_cache`: drop and
recreate both contract tables, insert one `created` log row. -/
def build_contract_photo_record_cache (_s : ContractCacheState) : ContractCacheState :=
  { cacheTableExists := true, rows := [], log := ["created"] }

/-- `PhotoContractEngine._fill_contract_photo_record_cache`: one cache row
per authoritative contract, status `new`. -/
def fill_contract_photo_record_cache (s : ContractCacheState)
    (l : List TblContractRow) : ContractCacheState :=
  { s with rows := s.rows ++ l.map (fun c =>
      { game_contract_uid := c.UID, game_contract_fedid := c.FedUID,
        game_contract_recordname := c.Name, game_contract_worker_uid := c.WorkerUID,
        game_contract_photo_file := c.Picture, game_contract_photo_status := "new" }) }

/-- `PhotoContractEngine._populate_contract_photo_record_cache`: fetch the
authoritative contract list (propagating failure) and fill the cache. -/
def populate_contract_photo_record_cache (s : ContractCacheState)
    (dbFetch : Except String (List TblContractRow)) :
    Except String ContractCacheState :=
  match dbFetch with
  | Except.error e => Except.error e
  | Except.ok l => Except.ok (fill_contract_photo_record_cache s l)

/-- Appending one log row to the contract log. -/
def appendContractLog (s : ContractCacheState) (status : String) : ContractCacheState :=
  { s with log := s.log ++ [status] }

/-- `PhotoContractEngine._contract_photo_cache_check`: false when
`skip_check` is set, when the `game_contract_photo_cache` table is missing
or when it holds no rows; true otherwise. The log table, its newest
timestamp and the max-age setting are never consulted. -/
def contract_photo_cache_check (skip_check : Bool) (tableExists : Bool)
    (rowCount : Nat) : Bool :=
  if skip_check then false
  else if !tableExists then false
  else if rowCount = 0 then false
  else true

/-- `PhotoContractEngine.contract_photo_cache_init`: when the check fails,
rebuild the schema, populate from the authoritative store (propagating
failure to the caller) and append an `initialized` log row. -/
def contract_photo_cache_init (skip_check : Bool) (s : ContractCacheState)
    (dbFetch : Except String (List TblContractRow)) :
    Except String ContractCacheState :=
  if contract_photo_cache_check skip_check s.cacheTableExists s.rows.length then
    Except.ok s
  else
    let s1 := build_contract_photo_record_cache s
    match populate_contract_photo_record_cache s1 dbFetch with
    | Except.error e => Except.error e
    | Except.ok s2 => Except.ok (appendContractLog s2 "initialized")

/-- `PhotoContractEngine._reset_contract_photo_record_cache`: rebuild, fetch
the authoritative list (raising on failure or emptiness) and fill. -/
def reset_contract_photo_record_cache (s : ContractCacheState)
    (dbFetch : Except String (List TblContractRow)) :
    Except String ContractCacheState :=
  let s1 := build_contract_photo_record_cache s
  match dbFetch with
  | Except.error e => Except.error e
  | Except.ok l =>
    if l.length = 0 then Except.error "Contract record list is empty"
    else Except.ok (fill_contract_photo_record_cache s1 l)

/-- `PhotoContractEngine._rebuild_contract_photo_record_cache`: rebuild the
schema and populate from the authoritative store again — this is the
fallback used by the refresh path, and it does consult the authoritative
store. -/
def rebuild_contract_photo_record_cache (s : ContractCacheState)
    (dbFetch : Except String (List TblContractRow)) :
    Except String ContractCacheState :=
  let s1 := build_contract_photo_record_cache s
  populate_contract_photo_record_cache s1 dbFetch

/-- `PhotoContractEngine.refresh_contract_photo_record_cache`: try the full
reset and append `refreshed`; if the reset raises, run the rebuild
(which populates from the authoritative store once more, propagating its
failure) and append `partial_refresh`. -/
def refresh_contract_photo_record_cache (s : ContractCacheState)
    (dbFetch : Except String (List TblContractRow)) :
    Except String ContractCacheState :=
  match reset_contract_photo_record_cache s dbFetch with
  | Except.ok s1 => Except.ok (appendContractLog s1 "refreshed")
  | Except.error _ =>
    match rebuild_contract_photo_record_cache s dbFetch with
    | Except.error e => Except.error e
    | Except.ok s2 => Except.ok (appendContractLog s2 "partial_refresh")

/-- A row of the `tblFed` initials query: `{"Initials": ...}`. -/
structure InitialsRow where
  Initials : String
deriving DecidableEq

/-- The federation-initials lookup inside
`fetch_contract_photo_record_cache_lists`: try the parameterized query,
on failure try the string-embedded fallback query, on failure again use
the literal `UNK` placeholder row. No exception escapes. -/
def fetch_fed_initials (query1 query2 : Nat → Except String (List InitialsRow))
    (fedUid : Nat) : List InitialsRow :=
  match query1 fedUid with
  | Except.ok r => r
  | Except.error _ =>
    match query2 fedUid with
    | Except.ok r => r
    | Except.error _ => [{ Initials := "UNK" }]

/-- `_fetch_worker_name_by_uid` (contract and ager engines): the first
fetched name, with `Unknown` both for an empty result and for a lookup
failure. -/
def fetch_worker_name_by_uid (workerLookup : Nat → Except String (List String))
    (uid : Nat) : String :=
  match workerLookup uid with
  | Except.error _ => "Unknown"
  | Except.ok [] => "Unknown"
  | Except.ok (n :: _) => n

/-- One item of the assembled contract list:
`{"game_contract_uid": ..., "game_contract_name": ...}`. -/
structure ContractListItem where
  game_contract_uid : Nat
  game_contract_name : String
deriving DecidableEq

/-- The per-row body of `fetch_contract_photo_record_cache_lists`: resolve
the worker name, resolve the federation initials (with the `UNK` fallback,
also applied when the lookup returns no rows) and assemble the composite
label. -/
def assembleContractItem (workerLookup : Nat → Except String (List String))
    (query1 query2 : Nat → Except String (List InitialsRow))
    (c : GameContractRow) : ContractListItem :=
  let worker_name := fetch_worker_name_by_uid workerLookup c.game_contract_worker_uid
  let fed0 := fetch_fed_initials query1 query2 c.game_contract_fedid
  let fed_initials := if fed0.length = 0 then [{ Initials := "UNK" : InitialsRow }] else fed0
  let first := match fed_initials with
    | [] => ""
    | r :: _ => r.Initials
  { game_contract_uid := c.game_contract_uid,
    game_contract_name := assemble_contract_record worker_name first
      c.game_contract_recordname c.game_contract_uid }

/-- `PhotoContractEngine.fetch_contract_photo_record_cache_lists`: raise on
an empty cache, assemble one labelled item per row, then produce the local
file list from the local worker cache, falling back to a live directory
scan when reading the cache fails or it is empty (a failing scan then
escapes to the caller). -/
def fetch_contract_photo_record_cache_lists (s : ContractCacheState)
    (workerLookup : Nat → Except String (List String))
    (query1 query2 : Nat → Except String (List InitialsRow))
    (localCache : Except String (List String))
    (dirScan : Except String (List String)) :
    Except String (List ContractListItem × List String) :=
  if s.rows.length = 0 then Except.error "Contract record list is empty"
  else
    let game := s.rows.map (assembleContractItem workerLookup query1 query2)
    let localSide : Except String (List String) :=
      match localCache with
      | Except.ok [] => dirScan
      | Except.ok ws => Except.ok ws
      | Except.error _ => dirScan
    match localSide with
    | Except.error e => Except.error e
    | Except.ok fs => Except.ok (game, fs)

/-- Outcome of a filename-update call: which uid row was written with
which normalized filename, or a silent no-op. -/
inductive UpdateOutcome
  | wrote (uid : Nat) (filename : String)
  | noop
deriving DecidableEq

/-- `PhotoContractEngine.update_contract_photo_filename`: extract the
trailing bracketed uid (raising `ValueError` when absent), normalize the
filename, and write it for that uid in both stores. -/
def update_contract_photo_filename (contract_name new_filename : String)
    (append_gif : Bool) (default_image_extension : Option String) :
    Except String UpdateOutcome :=
  match parseTrailingUid contract_name with
  | none => Except.error "Invalid contract name format"
  | some uid =>
    match normalize_photo_filename_std new_filename append_gif default_image_extension with
    | Except.error e => Except.error e
    | Except.ok f => Except.ok (UpdateOutcome.wrote uid f)

/-- A `tblAlternate` row as fetched by
`fetch_all_alters_specific_cols(["UID","WorkerUID","Recordname","Picture"])`. -/
structure TblAlterRow where
  UID : Nat
  WorkerUID : Nat
  Recordname : String
  Picture : String
deriving DecidableEq

/-- A `game_alter_photo_cache` row. -/
structure GameAlterRow where
  game_alter_alter_uid : Nat
  game_alter_recordname : String
  game_alter_worker_uid : Nat
  game_alter_photo_file : String
  game_alter_photo_status : String
deriving DecidableEq

/-- The alter-kind slice of the local cache store. -/
structure AlterCacheState where
  cacheTableExists : Bool
  rows : List GameAlterRow
  log : List String
deriving DecidableEq

/-- `PhotoAltersEngine._build_alter_photo_record_cache`. -/
def build_alter_photo_record_cache (_s : AlterCacheState) : AlterCacheState :=
  { cacheTableExists := true, rows := [], log := ["created"] }

/-- `PhotoAltersEngine._fill_alter_photo_record_cache`. -/
def fill_alter_photo_record_cache (s : AlterCacheState) (l : List TblAlterRow) :
    AlterCacheState :=
  { s with rows := s.rows ++ l.map (fun a =>
      { game_alter_alter_uid := a.UID, game_alter_recordname := a.Recordname,
        game_alter_worker_uid := a.WorkerUID, game_alter_photo_file := a.Picture,
        game_alter_photo_status := "new" }) }

/-- `PhotoAltersEngine._populate_alter_photo_record_cache`. -/
def populate_alter_photo_record_cache (s : AlterCacheState)
    (dbFetch : Except String (List TblAlterRow)) : Except String AlterCacheState :=
  match dbFetch with
  | Except.error e => Except.error e
  | Except.ok l => Except.ok (fill_alter_photo_record_cache s l)

/-- Appending one log row to the alter log. -/
def appendAlterLog (s : AlterCacheState) (status : String) : AlterCacheState :=
  { s with log := s.log ++ [status] }

/-- `PhotoAltersEngine._alter_photo_cache_check`: same table-and-rows test
as the contract kind; no timestamp or max-age is consulted. -/
def alter_photo_cache_check (skip_check : Bool) (tableExists : Bool)
    (rowCount : Nat) : Bool :=
  if skip_check then false
  else if !tableExists then false
  else if rowCount = 0 then false
  else true

/-- `PhotoAltersEngine.alter_photo_cache_init`. -/
def alter_photo_cache_init (skip_check : Bool) (s : AlterCacheState)
    (dbFetch : Except String (List TblAlterRow)) : Except String AlterCacheState :=
  if alter_photo_cache_check skip_check s.cacheTableExists s.rows.length then
    Except.ok s
  else
    let s1 := build_alter_photo_record_cache s
    match populate_alter_photo_record_cache s1 dbFetch with
    | Except.error e => Except.error e
    | Except.ok s2 => Except.ok (appendAlterLog s2 "initialized")

/-- `PhotoAltersEngine._reset_alter_photo_record_cache`: rebuild, scan the
worker photo directory (raising on failure or emptiness), fetch the
authoritative alters (raising on failure or emptiness), fill. -/
def reset_alter_photo_record_cache (s : AlterCacheState)
    (dirScan : Except String (List String))
    (dbFetch : Except String (List TblAlterRow)) : Except String AlterCacheState :=
  let s1 := build_alter_photo_record_cache s
  match dirScan with
  | Except.error e => Except.error e
  | Except.ok right_list =>
    if right_list.length = 0 then Except.error "Right list is empty"
    else
      match dbFetch with
      | Except.error e => Except.error e
      | Except.ok l =>
        if l.length = 0 then Except.error "Alter record list is empty"
        else Except.ok (fill_alter_photo_record_cache s1 l)

/-- `PhotoAltersEngine._rebuild_alter_photo_record_cache`: schema rebuild
only — the alter fallback populates nothing at all. -/
def rebuild_alter_photo_record_cache (s : AlterCacheState) : AlterCacheState :=
  build_alter_photo_record_cache s

/-- `PhotoAltersEngine.refresh_alter_photo_record_cache`: try the full
reset and append `refreshed`; if it raises, rebuild the empty schema and
append `partial_refresh`. -/
def refresh_alter_photo_record_cache (s : AlterCacheState)
    (dirScan : Except String (List String))
    (dbFetch : Except String (List TblAlterRow)) : Except String AlterCacheState :=
  match reset_alter_photo_record_cache s dirScan dbFetch with
  | Except.ok s1 => Except.ok (appendAlterLog s1 "refreshed")
  | Except.error _ =>
    let s2 := rebuild_alter_photo_record_cache s
    Except.ok (appendAlterLog s2 "partial_refresh")

/-- `PhotoAltersEngine.update_alter_photo_filename`: extract the *first*
bracketed integer anywhere in the label (raising when absent), normalize
the filename, and write it for that uid in both stores. -/
def update_alter_photo_filename (alter_name new_filename : String)
    (append_gif : Bool) (default_image_extension : Option String) :
    Except String UpdateOutcome :=
  match findBracketUid alter_name.data with
  | none => Except.error ("Invalid alter name format: " ++ alter_name)
  | some uid =>
    match normalize_photo_filename_std new_filename append_gif default_image_extension with
    | Except.error e => Except.error e
    | Except.ok f => Except.ok (UpdateOutcome.wrote uid f)

/-- A `tblAger` row as fetched by
`fetch_all_agers_specific_cols(["UID","Recordname","Worker","Trigger","Picture"])`. -/
structure TblAgerRow where
  UID : Nat
  Recordname : String
  Worker : Nat
  Trigger : Nat
  Picture : String
deriving DecidableEq

/-- A `game_ager_photo_cache` row. -/
structure GameAgerRow where
  game_ager_uid : Nat
  game_ager_recordname : String
  game_ager_worker_uid : Nat
  game_ager_trigger_age : Nat
  game_ager_photo_file : String
  game_ager_photo_status : String
deriving DecidableEq

/-- The ager-kind slice of the local cache store. -/
structure AgerCacheState where
  cacheTableExists : Bool
  rows : List GameAgerRow
  log : List String
deriving DecidableEq

/-- `PhotoAgersEngine._build_ager_photo_record_cache`. -/
def build_ager_photo_record_cache (_s : AgerCacheState) : AgerCacheState :=
  { cacheTableExists := true, rows := [], log := ["created"] }

/-- `PhotoAgersEngine._fill_ager_photo_record_cache`. -/
def fill_ager_photo_record_cache (s : AgerCacheState) (l : List TblAgerRow) :
    AgerCacheState :=
  { s with rows := s.rows ++ l.map (fun a =>
      { game_ager_uid := a.UID, game_ager_recordname := a.Recordname,
        game_ager_worker_uid := a.Worker, game_ager_trigger_age := a.Trigger,
        game_ager_photo_file := a.Picture, game_ager_photo_status := "new" }) }

/-- `PhotoAgersEngine._populate_ager_photo_record_cache`. -/
def populate_ager_photo_record_cache (s : AgerCacheState)
    (dbFetch : Except String (List TblAgerRow)) : Except String AgerCacheState :=
  match dbFetch with
  | Except.error e => Except.error e
  | Except.ok l => Except.ok (fill_ager_photo_record_cache s l)

/-- Appending one log row to the ager log. -/
def appendAgerLog (s : AgerCacheState) (status : String) : AgerCacheState :=
  { s with log := s.log ++ [status] }

/-- `PhotoAgersEngine._ager_photo_cache_check`: same table-and-rows test
as the contract kind; no timestamp or max-age is consulted. -/
def ager_photo_cache_check (skip_check : Bool) (tableExists : Bool)
    (rowCount : Nat) : Bool :=
  if skip_check then false
  else if !tableExists then false
  else if rowCount = 0 then false
  else true

/-- `PhotoAgersEngine.ager_photo_cache_init`. -/
def ager_photo_cache_init (skip_check : Bool) (s : AgerCacheState)
    (dbFetch : Except String (List TblAgerRow)) : Except String AgerCacheState :=
  if ager_photo_cache_check skip_check s.cacheTableExists s.rows.length then
    Except.ok s
  else
    let s1 := build_ager_photo_record_cache s
    match populate_ager_photo_record_cache s1 dbFetch with
    | Except.error e => Except.error e
    | Except.ok s2 => Except.ok (appendAgerLog s2 "initialized")

/-- `PhotoAgersEngine._fetch_ager_photo_record_cache`: read the *local
cache* rows, raising when the table is missing or empty. -/
def fetch_ager_photo_record_cache (s : AgerCacheState) :
    Except String (List GameAgerRow) :=
  if !s.cacheTableExists then Except.error "no such table: game_ager_photo_cache"
  else if s.rows.length = 0 then Except.error "Ager record list is empty"
  else Except.ok s.rows

/-- `PhotoAgersEngine._reset_ager_photo_record_cache`: rebuild the schema,
then (unlike every other kind) re-read the *just-emptied cache* instead of
the authoritative store — the read always raises `Ager record list is
empty`, so the reset never succeeds. Were the list somehow non-empty, the
fill would index the cache rows with authoritative keys and raise. -/
def reset_ager_photo_record_cache (s : AgerCacheState) : Except String AgerCacheState :=
  let s1 := build_ager_photo_record_cache s
  match fetch_ager_photo_record_cache s1 with
  | Except.error e => Except.error e
  | Except.ok l =>
    if l.length = 0 then Except.error "Ager record list is empty"
    else Except.error "IndexError: No item with that key"

/-- `PhotoAgersEngine._rebuild_ager_photo_record_cache`: rebuild and
populate from the authoritative store (the refresh fallback path). -/
def rebuild_ager_photo_record_cache (s : AgerCacheState)
    (dbFetch : Except String (List TblAgerRow)) : Except String AgerCacheState :=
  let s1 := build_ager_photo_record_cache s
  populate_ager_photo_record_cache s1 dbFetch

/-- `PhotoAgersEngine.refresh_ager_photo_record_cache`: try the (always
failing) reset, then fall back to rebuild-and-populate and append
`partial_refresh`; a populate failure in the fallback escapes. -/
def refresh_ager_photo_record_cache (s : AgerCacheState)
    (dbFetch : Except String (List TblAgerRow)) : Except String AgerCacheState :=
  match reset_ager_photo_record_cache s with
  | Except.ok s1 => Except.ok (appendAgerLog s1 "refreshed")
  | Except.error _ =>
    match rebuild_ager_photo_record_cache s dbFetch with
    | Except.error e => Except.error e
    | Except.ok s2 => Except.ok (appendAgerLog s2 "partial_refresh")

/-- `PhotoAgersEngine.update_ager_photo_filename`: extract the first
bracketed integer anywhere in the label; when none is present, **return
silently with no write and no error**. Otherwise normalize (with the
ager-specific policy that ignores `append_gif` for missing extensions)
and write. -/
def update_ager_photo_filename (ager_name new_filename : String)
    (append_gif : Bool) (default_image_extension : Option String) :
    Except String UpdateOutcome :=
  match findBracketUid ager_name.data with
  | none => Except.ok UpdateOutcome.noop
  | some uid =>
    match normalize_photo_filename_ager new_filename append_gif default_image_extension with
    | Except.error e => Except.error e
    | Except.ok f => Except.ok (UpdateOutcome.wrote uid f)

lemma valFrom_append (a : Nat) (l1 l2 : List Char) :
    valFrom a (l1 ++ l2) = valFrom (valFrom a l1) l2 := by
  simp [valFrom, List.foldl_append]

lemma valFrom_single (a : Nat) (c : Char) : valFrom a [c] = a * 10 + digitVal c := by
  simp [valFrom]

lemma digit_char_val {k : Nat} (h : k < 10) : digitVal (Char.ofNat (48 + k)) = k := by
  interval_cases k <;> decide

lemma digit_char_isDigit {k : Nat} (h : k < 10) : (Char.ofNat (48 + k)).isDigit = true := by
  interval_cases k <;> decide

lemma natToCharsFuel_append (f : Nat) : ∀ (n : Nat) (acc : List Char),
    natToCharsFuel f n acc = natToCharsFuel f n [] ++ acc := by
  induction f with
  | zero => intro n acc; simp [natToCharsFuel]
  | succ f ih =>
    intro n acc
    by_cases h : n < 10
    · simp [natToCharsFuel, h]
    · simp only [natToCharsFuel, if_neg h]
      rw [ih (n / 10) (Char.ofNat (48 + n % 10) :: acc),
          ih (n / 10) [Char.ofNat (48 + n % 10)]]
      simp

lemma natToCharsFuel_ne_nil (f n : Nat) : natToCharsFuel f n [] ≠ [] := by
  cases f with
  | zero => simp [natToCharsFuel]
  | succ f =>
    by_cases h : n < 10
    · simp [natToCharsFuel, h]
    · simp only [natToCharsFuel, if_neg h]
      rw [natToCharsFuel_append]
      simp

lemma natToCharsFuel_isDigit (f : Nat) : ∀ (n : Nat) (c : Char),
    c ∈ natToCharsFuel f n [] → c.isDigit = true := by
  induction f with
  | zero =>
    intro n c hc
    simp [natToCharsFuel] at hc
    subst hc
    exact digit_char_isDigit (Nat.mod_lt _ (by norm_num))
  | succ f ih =>
    intro n c hc
    by_cases h : n < 10
    · simp [natToCharsFuel, h] at hc
      subst hc
      exact digit_char_isDigit (Nat.mod_lt _ (by norm_num))
    · simp only [natToCharsFuel, if_neg h] at hc
      rw [natToCharsFuel_append] at hc
      rcases List.mem_append.mp hc with h1 | h2
      · exact ih _ _ h1
      · simp at h2
        subst h2
        exact digit_char_isDigit (Nat.mod_lt _ (by norm_num))

lemma natToCharsFuel_val (f : Nat) : ∀ n, n ≤ f → ∀ a,
    ∃ p, 0 < p ∧ valFrom a (natToCharsFuel f n []) = a * p + n := by
  induction f with
  | zero =>
    intro n hn a
    have hn0 : n = 0 := Nat.le_zero.mp hn
    subst hn0
    refine ⟨10, by norm_num, ?_⟩
    simp [natToCharsFuel, valFrom]
    decide
  | succ f ih =>
    intro n hn a
    by_cases h : n < 10
    · refine ⟨10, by norm_num, ?_⟩
      simp only [natToCharsFuel, if_pos h]
      rw [valFrom_single, digit_char_val (Nat.mod_lt _ (by norm_num)),
          Nat.mod_eq_of_lt h]
    · simp only [natToCharsFuel, if_neg h]
      have hle : n / 10 ≤ f := by omega
      obtain ⟨p, hp, hval⟩ := ih (n / 10) hle a
      refine ⟨p * 10, by positivity, ?_⟩
      rw [natToCharsFuel_append, valFrom_append, hval, valFrom_single,
          digit_char_val (Nat.mod_lt _ (by norm_num))]
      rw [← Nat.mul_assoc]
      generalize a * p = q
      omega

lemma digitsToNat_natToString (n : Nat) :
    digitsToNat (natToCharsFuel n n []) = n := by
  obtain ⟨p, _, h⟩ := natToCharsFuel_val n n le_rfl 0
  simpa [digitsToNat, valFrom] using h

lemma takeWhile_digits_bracket (ds tail : List Char)
    (hds : ∀ c ∈ ds, c.isDigit = true) :
    (ds ++ '[' :: tail).takeWhile Char.isDigit = ds
      ∧ (ds ++ '[' :: tail).dropWhile Char.isDigit = '[' :: tail := by
  induction ds with
  | nil => constructor <;> simp [List.takeWhile, List.dropWhile]
  | cons c cs ih =>
    have hc : c.isDigit = true := hds c (by simp)
    obtain ⟨h1, h2⟩ := ih (fun x hx => hds x (by simp [hx]))
    constructor
    · simp [List.takeWhile_cons, hc, h1]
    · simp [List.dropWhile_cons, hc, h2]

lemma str_append_assoc (a b c : String) : a ++ b ++ c = a ++ (b ++ c) := by
  apply String.ext
  simp [String.data_append]

lemma parseTrailingUidRev_spec (uid : Nat) (rest : List Char) :
    parseTrailingUidRev
      (']' :: ((natToCharsFuel uid uid []).reverse ++ ('[' :: rest))) = some uid := by
  have hd : ∀ c ∈ (natToCharsFuel uid uid []).reverse, c.isDigit = true := by
    intro c hc
    exact natToCharsFuel_isDigit uid uid c (List.mem_reverse.mp hc)
  obtain ⟨h1, h2⟩ := takeWhile_digits_bracket _ rest hd
  have hne : (natToCharsFuel uid uid []).reverse ≠ [] := by
    simp [natToCharsFuel_ne_nil]
  simp only [parseTrailingUidRev, if_pos rfl, h1, h2]
  rw [if_neg hne]
  simp [List.reverse_reverse, digitsToNat_natToString]

lemma parseTrailingUid_concat (s : String) (uid : Nat) :
    parseTrailingUid (s ++ "[" ++ natToString uid ++ "]") = some uid := by
  have hdata : (s ++ "[" ++ natToString uid ++ "]").data.reverse
      = ']' :: ((natToCharsFuel uid uid []).reverse ++ ('[' :: s.data.reverse)) := by
    simp [String.data_append, natToString, List.reverse_append]
  rw [parseTrailingUid, hdata]
  exact parseTrailingUidRev_spec uid s.data.reverse

lemma parseTrailing_contract_label (w f c : String) (uid : Nat) :
    parseTrailingUid (assemble_contract_record w f c uid) = some uid := by
  have h : assemble_contract_record w f c uid
      = (w ++ "[" ++ f ++ "][" ++ c ++ "]") ++ "[" ++ natToString uid ++ "]" := by
    have h2 : ("][" : String) = "]" ++ "[" := rfl
    simp [assemble_contract_record, str_append_assoc, h2]
  rw [h]
  exact parseTrailingUid_concat _ uid

lemma parseTrailing_ager_label (w : String) (age uid : Nat) :
    parseTrailingUid (assemble_ager_record w age uid) = some uid := by
  have h : assemble_ager_record w age uid
      = (w ++ "[Age@" ++ natToString age ++ "]") ++ "[" ++ natToString uid ++ "]" := by
    have h2 : ("][" : String) = "]" ++ "[" := rfl
    simp [assemble_ager_record, str_append_assoc, h2]
  rw [h]
  exact parseTrailingUid_concat _ uid

lemma parseTrailing_alter_label (rn : String) (uid : Nat) (h : alterDesc rn = "") :
    parseTrailingUid (assemble_alter_record rn uid) = some uid := by
  rw [assemble_alter_record]
  simp only [h, if_pos rfl]
  exact parseTrailingUid_concat _ uid

lemma contract_label_unk_decomp (w c : String) (uid : Nat) :
    assemble_contract_record w "UNK" c uid
      = w ++ "[UNK]" ++ ("[" ++ c ++ "][" ++ natToString uid ++ "]") := by
  apply String.ext
  simp [assemble_contract_record, String.data_append, List.append_assoc]

/-- C2 (amended): the worker freshness check returns false when
`skip_check` is true, when the log table is missing, when it has no rows,
when the newest timestamp or the max-age setting fails to parse — and it
returns true exactly when `now - newestTimestamp ≤ maxAgeHours` (the code
compares with `<` on the other side, so the boundary is inclusive, not
strict as claimed). The embedding is a total boolean function because
every exception in the source is caught and mapped to false. -/
theorem c2_freshness_check_characterization (sk te : Bool)
    (nl : Option (Option Int)) (ma : Option Int) (now : Int) :
    worker_photo_cache_check sk te nl ma now = true ↔
      sk = false ∧ te = true ∧
        ∃ ts maxAge, nl = some (some ts) ∧ ma = some maxAge
          ∧ now - ts ≤ maxAge * 3600 := by
  cases sk <;> cases te <;>
    rcases nl with _ | (_ | ts) <;> rcases ma with _ | maxAge <;>
      simp [worker_photo_cache_check, verify_worker_photo_cache_is_ready] <;>
      (try (constructor <;> intro h <;> omega))

/-- C2 counterexample: at the exact boundary `now - newestTimestamp =
maxAgeHours` the check returns true, although the claim allows true only
when the age is strictly below the maximum. -/
theorem c2_freshness_boundary_counterexample :
    worker_photo_cache_check false true (some (some 0)) (some 1) 3600 = true
      ∧ ¬ ((3600 : Int) - 0 < 1 * 3600) := by
  constructor
  · rfl
  · omega

/-- C4 (amended): contract and ager labels always end with the bracketed
uid of their own row, and so does an alter label when the alter
description is empty; when the description is non-empty the alter label
instead ends with the bracketed description, appended *after* the uid. -/
theorem c4_label_trailing_uid :
    (∀ (w f c : String) (uid : Nat),
      parseTrailingUid (assemble_contract_record w f c uid) = some uid)
    ∧ (∀ (w : String) (age uid : Nat),
      parseTrailingUid (assemble_ager_record w age uid) = some uid)
    ∧ (∀ (rn : String) (uid : Nat), alterDesc rn = "" →
      parseTrailingUid (assemble_alter_record rn uid) = some uid)
    ∧ (∀ (rn : String) (uid : Nat), alterDesc rn ≠ "" →
      ∃ t, assemble_alter_record rn uid = t ++ "[" ++ alterDesc rn ++ "]") := by
  refine ⟨parseTrailing_contract_label, parseTrailing_ager_label,
    parseTrailing_alter_label, ?_⟩
  intro rn uid h
  refine ⟨alterWorkerName rn ++ "[" ++ natToString uid ++ "]", ?_⟩
  rw [assemble_alter_record]
  simp only [if_neg h]

/-- C4 witness. -/
theorem c4_label_trailing_uid_witness :
    parseTrailingUid (assemble_contract_record "Alice" "XYZT" "Match" 901) = some 901
      ∧ parseTrailingUid (assemble_alter_record "Alice" 5) = some 5 := by
  exact ⟨c4_label_trailing_uid.1 "Alice" "XYZT" "Match" 901,
    c4_label_trailing_uid.2.2.1 "Alice" 5 (by decide)⟩

/-- C4 counterexample: the alter row with `Recordname = "Alice|Mask"` and
uid 5 yields the label `Alice[5][Mask]`, whose trailing bracketed group is
the description, not the uid, so the trailing-uid extraction fails on it. -/
theorem c4_alter_label_counterexample :
    assemble_alter_record "Alice|Mask" 5 = "Alice[5][Mask]"
      ∧ parseTrailingUid "Alice[5][Mask]" ≠ some 5 := by
  constructor
  · rfl
  · decide

/-- C5 (amended): the contract updater extracts the trailing `[uid]` and
raises `Invalid contract name format` when it is absent; the alter updater
extracts the *first* bracketed integer and raises when none exists; the
ager updater extracts the first bracketed integer but silently returns,
with no write and no error, when none exists; the worker updater performs
no label parsing at all and updates by name equality whenever the filename
normalizes. -/
theorem c5_update_label_parsing :
    (∀ (label nf : String) (g : Bool) (d : Option String),
      parseTrailingUid label = none →
        update_contract_photo_filename label nf g d
          = Except.error "Invalid contract name format")
    ∧ (∀ (label nf : String) (g : Bool) (d : Option String) (uid : Nat) (uf : String),
      parseTrailingUid label = some uid →
        normalize_photo_filename_std nf g d = Except.ok uf →
        update_contract_photo_filename label nf g d
          = Except.ok (UpdateOutcome.wrote uid uf))
    ∧ (∀ (label nf : String) (g : Bool) (d : Option String),
      findBracketUid label.data = none →
        update_alter_photo_filename label nf g d
          = Except.error ("Invalid alter name format: " ++ label))
    ∧ (∀ (label nf : String) (g : Bool) (d : Option String),
      findBracketUid label.data = none →
        update_ager_photo_filename label nf g d = Except.ok UpdateOutcome.noop)
    ∧ (∀ (cache : List GameWorkerRow) (db : List TblWorkerRow)
        (label nf : String) (g : Bool) (d : Option String) (uf : String),
      normalize_photo_filename_std nf g d = Except.ok uf →
        ∃ res, update_worker_photo_filename cache db label nf g d = Except.ok res) := by
  refine ⟨?_, ?_, ?_, ?_, ?_⟩
  · intro label nf g d h
    rw [update_contract_photo_filename, h]
  · intro label nf g d uid uf h hn
    rw [update_contract_photo_filename, h, hn]
  · intro label nf g d h
    rw [update_alter_photo_filename, h]
  · intro label nf g d h
    rw [update_ager_photo_filename, h]
  · intro cache db label nf g d uf hn
    rw [update_worker_photo_filename, hn]
    exact ⟨_, rfl⟩

/-- C5 witness. -/
theorem c5_update_label_parsing_witness :
    update_contract_photo_filename "Alice" "x.png" false none
        = Except.error "Invalid contract name format"
      ∧ ∃ res, update_worker_photo_filename [] [] "Alice" "x.png" true none
        = Except.ok res := by
  constructor
  · exact c5_update_label_parsing.1 "Alice" "x.png" false none (by decide)
  · exact c5_update_label_parsing.2.2.2.2 [] [] "Alice" "x.png" true none
      "x.png" (by rfl)

/-- C5 counterexample: the ager updater, given a label with no bracketed
integer, returns successfully without writing anything — a silent no-op,
where the claim requires an invalid-format error for every entity kind. -/
theorem c5_ager_silent_noop_counterexample :
    update_ager_photo_filename "Alice" "x.png" false none
      = Except.ok UpdateOutcome.noop := by
  rfl

lemma filepath_formatter_keeps_jpg (nf : String) (h : pathSuffix nf = ".jpg") :
    filepath_formatter nf (some ".jpg") = nf := by
  show (if (".jpg" : String) = "" then nf
    else if strToLower (pathSuffix nf) = "." ++ strToLower ".jpg"
        ∨ strToLower (pathSuffix nf) = strToLower ".jpg" then nf
    else nf ++ "." ++ ".jpg") = nf
  rw [if_neg (by decide), if_pos (Or.inr (by rw [h]))]

lemma normalize_std_keeps_jpg (nf : String) (g : Bool) (d : Option String)
    (h : pathSuffix nf = ".jpg") :
    normalize_photo_filename_std nf g d = Except.ok nf := by
  have he : extract_extension nf = some ".jpg" := by
    simp [extract_extension, h]
  have hb : ((".jpg" : String) == "gif") = false := by decide
  unfold normalize_photo_filename_std
  rw [he]
  cases g <;> simp [hb, filepath_formatter_keeps_jpg nf h]

lemma normalize_ager_keeps_jpg (nf : String) (g : Bool) (d : Option String)
    (h : pathSuffix nf = ".jpg") :
    normalize_photo_filename_ager nf g d = Except.ok nf := by
  have he : extract_extension nf = some ".jpg" := by
    simp [extract_extension, h]
  have hb : ((".jpg" : String) == "gif") = false := by decide
  unfold normalize_photo_filename_ager
  rw [he]
  cases g <;> simp [hb, filepath_formatter_keeps_jpg nf h]

/-- C6 (amended): for the worker, contract and alter kinds the claimed
extension policy holds: `portrait` with `append_gif = false` and default
`png` is stored as `portrait.png`; `portrait` with `append_gif = true` is
stored as `portrait.gif` whatever the default; a filename whose suffix is
already `.jpg` is stored unchanged in all cases; and a missing extension
with no default raises. The ager kind diverges: it ignores `append_gif`
when the extension is missing, always substituting the configured default
(`portrait` with `append_gif = true` and default `png` is stored as
`portrait.png`, not `portrait.gif`) and raising when no default is set,
even with `append_gif = true`. -/
theorem c6_extension_policy :
    normalize_photo_filename_std "portrait" false (some "png") = Except.ok "portrait.png"
    ∧ (∀ d, normalize_photo_filename_std "portrait" true d = Except.ok "portrait.gif")
    ∧ (∀ (nf : String) (g : Bool) (d : Option String), pathSuffix nf = ".jpg" →
        normalize_photo_filename_std nf g d = Except.ok nf)
    ∧ (∀ nf, extract_extension nf = none →
        normalize_photo_filename_std nf false none
          = Except.error "Default image extension is not set in settings.")
    ∧ (∀ g, normalize_photo_filename_ager "portrait" g (some "png")
        = Except.ok "portrait.png")
    ∧ (∀ (nf : String) (g : Bool), extract_extension nf = none →
        normalize_photo_filename_ager nf g none
          = Except.error "Default image extension is not set in settings.")
    ∧ (∀ (nf : String) (g : Bool) (d : Option String), pathSuffix nf = ".jpg" →
        normalize_photo_filename_ager nf g d = Except.ok nf) := by
  refine ⟨rfl, fun d => rfl, normalize_std_keeps_jpg, ?_, ?_, ?_, normalize_ager_keeps_jpg⟩
  · intro nf h
    unfold normalize_photo_filename_std
    rw [h]
  · intro g
    cases g <;> rfl
  · intro nf g h
    unfold normalize_photo_filename_ager
    rw [h]

/-- C6 witness. -/
theorem c6_extension_policy_witness :
    normalize_photo_filename_std "photo.jpg" true (some "png") = Except.ok "photo.jpg"
      ∧ normalize_photo_filename_ager "photo.jpg" false none = Except.ok "photo.jpg"
      ∧ normalize_photo_filename_ager "portrait" true none
        = Except.error "Default image extension is not set in settings." := by
  refine ⟨c6_extension_policy.2.2.1 "photo.jpg" true (some "png") (by decide),
    c6_extension_policy.2.2.2.2.2.2 "photo.jpg" false none (by decide),
    c6_extension_policy.2.2.2.2.2.1 "portrait" true (by decide)⟩

/-- C6 counterexample: the ager updater, asked to store `portrait` with
`appendGifIfNoExt = true` and configured default `png`, stores
`portrait.png` — not the `portrait.gif` the claim requires for every
entity kind. -/
theorem c6_ager_gif_counterexample :
    update_ager_photo_filename "Alice[Age@40][7]" "portrait" true (some "png")
      = Except.ok (UpdateOutcome.wrote 7 "portrait.png")
    ∧ "portrait.png" ≠ "portrait.gif" := by
  exact ⟨rfl, by decide⟩

/-- C7: the contract row (uid 901, worker `Alice`, federation initials
`XYZ`, record name `TitleMatch`) is assembled into exactly
`Alice[XYZ][TitleMatch][901]`, and feeding that label back into the
contract updater recovers uid 901 as the written row key. -/
theorem c7_contract_label_roundtrip :
    assemble_contract_record "Alice" "XYZ" "TitleMatch" 901
        = "Alice[XYZ][TitleMatch][901]"
    ∧ parseTrailingUid "Alice[XYZ][TitleMatch][901]" = some 901
    ∧ update_contract_photo_filename "Alice[XYZ][TitleMatch][901]" "x.png" false none
        = Except.ok (UpdateOutcome.wrote 901 "x.png") :=
  ⟨rfl, by decide, rfl⟩

/-- C3 (amended): for the contract, alter and ager kinds, a failed cache
check makes init rebuild the schema, populate from the authoritative
store (one `new` row per fetched record), append an `initialized` log row,
and propagate a population failure to the caller. The worker kind
diverges: its init delegates to the exception-swallowing reset, so it
returns success even when population fails, and its log never receives an
`initialized` row (it holds exactly the `created` row of the rebuild). -/
theorem c3_init_behavior :
    (∀ (s : ContractCacheState) (e : String),
      contract_photo_cache_check false s.cacheTableExists s.rows.length = false →
        contract_photo_cache_init false s (Except.error e) = Except.error e)
    ∧ (∀ (s : ContractCacheState) (l : List TblContractRow),
      contract_photo_cache_check false s.cacheTableExists s.rows.length = false →
        ∃ s2, contract_photo_cache_init false s (Except.ok l) = Except.ok s2
          ∧ s2.log = ["created", "initialized"]
          ∧ s2.rows.length = l.length
          ∧ ∀ r ∈ s2.rows, r.game_contract_photo_status = "new")
    ∧ (∀ (s : AlterCacheState) (e : String),
      alter_photo_cache_check false s.cacheTableExists s.rows.length = false →
        alter_photo_cache_init false s (Except.error e) = Except.error e)
    ∧ (∀ (s : AlterCacheState) (l : List TblAlterRow),
      alter_photo_cache_check false s.cacheTableExists s.rows.length = false →
        ∃ s2, alter_photo_cache_init false s (Except.ok l) = Except.ok s2
          ∧ s2.log = ["created", "initialized"]
          ∧ s2.rows.length = l.length
          ∧ ∀ r ∈ s2.rows, r.game_alter_photo_status = "new")
    ∧ (∀ (s : AgerCacheState) (e : String),
      ager_photo_cache_check false s.cacheTableExists s.rows.length = false →
        ager_photo_cache_init false s (Except.error e) = Except.error e)
    ∧ (∀ (s : AgerCacheState) (l : List TblAgerRow),
      ager_photo_cache_check false s.cacheTableExists s.rows.length = false →
        ∃ s2, ager_photo_cache_init false s (Except.ok l) = Except.ok s2
          ∧ s2.log = ["created", "initialized"]
          ∧ s2.rows.length = l.length
          ∧ ∀ r ∈ s2.rows, r.game_ager_photo_status = "new")
    ∧ (∀ (s : WorkerCacheState) (nl : Option (Option Int)) (ma : Option Int)
        (now : Int) (dirScan : Except String (List String))
        (dbFetch : Except String (List TblWorkerRow)),
      worker_photo_cache_check false s.logTableExists nl ma now = false →
        ∃ st, worker_photo_cache_init false s nl ma now dirScan dbFetch
            = Except.ok (true, st)
          ∧ st.log = ["created"]) := by
  refine ⟨?_, ?_, ?_, ?_, ?_, ?_, ?_⟩
  · intro s e h
    simp [contract_photo_cache_init, h, populate_contract_photo_record_cache]
  · intro s l h
    refine ⟨appendContractLog (fill_contract_photo_record_cache (build_contract_photo_record_cache s) l) "initialized",
      by simp [contract_photo_cache_init, h, populate_contract_photo_record_cache], ?_, ?_, ?_⟩
    · simp [appendContractLog, fill_contract_photo_record_cache,
        build_contract_photo_record_cache]
    · simp [appendContractLog, fill_contract_photo_record_cache,
        build_contract_photo_record_cache]
    · intro r hr
      simp [appendContractLog, fill_contract_photo_record_cache,
        build_contract_photo_record_cache] at hr
      obtain ⟨c, _, rfl⟩ := hr
      rfl
  · intro s e h
    simp [alter_photo_cache_init, h, populate_alter_photo_record_cache]
  · intro s l h
    refine ⟨appendAlterLog (fill_alter_photo_record_cache (build_alter_photo_record_cache s) l) "initialized",
      by simp [alter_photo_cache_init, h, populate_alter_photo_record_cache], ?_, ?_, ?_⟩
    · simp [appendAlterLog, fill_alter_photo_record_cache,
        build_alter_photo_record_cache]
    · simp [appendAlterLog, fill_alter_photo_record_cache,
        build_alter_photo_record_cache]
    · intro r hr
      simp [appendAlterLog, fill_alter_photo_record_cache,
        build_alter_photo_record_cache] at hr
      obtain ⟨c, _, rfl⟩ := hr
      rfl
  · intro s e h
    simp [ager_photo_cache_init, h, populate_ager_photo_record_cache]
  · intro s l h
    refine ⟨appendAgerLog (fill_ager_photo_record_cache (build_ager_photo_record_cache s) l) "initialized",
      by simp [ager_photo_cache_init, h, populate_ager_photo_record_cache], ?_, ?_, ?_⟩
    · simp [appendAgerLog, fill_ager_photo_record_cache,
        build_ager_photo_record_cache]
    · simp [appendAgerLog, fill_ager_photo_record_cache,
        build_ager_photo_record_cache]
    · intro r hr
      simp [appendAgerLog, fill_ager_photo_record_cache,
        build_ager_photo_record_cache] at hr
      obtain ⟨c, _, rfl⟩ := hr
      rfl
  · intro s nl ma now dirScan dbFetch h
    refine ⟨reset_worker_photo_cache s dirScan dbFetch,
      by simp [worker_photo_cache_init, h], ?_⟩
    cases hf : fetch_worker_photo_lists dirScan dbFetch with
    | error e =>
      simp [reset_worker_photo_cache, rebuild_worker_photo_cache, hf]
    | ok p =>
      simp [reset_worker_photo_cache, rebuild_worker_photo_cache, hf,
        build_local_worker_photo_cache, build_game_worker_photo_cache]

/-- C3 witness. -/
theorem c3_init_behavior_witness :
    contract_photo_cache_init false ⟨false, [], []⟩
        (Except.error "authoritative store unreachable")
      = Except.error "authoritative store unreachable"
    ∧ ∃ st, worker_photo_cache_init false ⟨false, [], [], []⟩ none none 0
        (Except.ok ["a.png"]) (Except.error "authoritative store unreachable")
        = Except.ok (true, st) ∧ st.log = ["created"] := by
  constructor
  · exact c3_init_behavior.1 ⟨false, [], []⟩ "authoritative store unreachable" rfl
  · exact c3_init_behavior.2.2.2.2.2.2 ⟨false, [], [], []⟩ none none 0
      (Except.ok ["a.png"]) (Except.error "authoritative store unreachable") rfl

/-- C3 counterexample: for the worker kind, with a stale cache and an
authoritative fetch that fails, init neither raises nor appends an
`initialized` log row — it returns success with only the rebuild's
`created` row in the log. -/
theorem c3_worker_init_counterexample :
    worker_photo_cache_init false ⟨false, [], [], []⟩ none none 0
        (Except.ok ["a.png"]) (Except.error "authoritative store unreachable")
      = Except.ok (true, ⟨true, ["created"], [], []⟩)
    ∧ "initialized" ∉ (["created"] : List String) :=
  ⟨rfl, by decide⟩

/-- C1: the claimed partial-refresh fallback cannot fire. For the worker
kind, `_reset_worker_photo_cache` swallows the populate failure
(contradicting its own docstring), so `refresh` reports `refreshed` — and
even discards the previously cached local files — instead of logging
`partial_refresh`. For the contract and ager kinds the fallback
re-populates from the authoritative store, so when that store is the
failing step the refresh raises instead of completing with
`partial_refresh` from local data. -/
theorem c1_refresh_fallback_divergence :
    refresh_worker_photo_cache
        ⟨true, ["created"], ["old.png"], [⟨1, "Alice", "x.png", "new"⟩]⟩
        (Except.ok ["a.png"]) (Except.error "authoritative store unreachable")
      = Except.ok ⟨true, ["created", "refreshed"], [], []⟩
    ∧ refresh_contract_photo_record_cache ⟨true, [], ["created"]⟩
        (Except.error "authoritative store unreachable")
      = Except.error "authoritative store unreachable"
    ∧ refresh_ager_photo_record_cache ⟨true, [], ["created"]⟩
        (Except.error "authoritative store unreachable")
      = Except.error "authoritative store unreachable" :=
  ⟨rfl, rfl, rfl⟩

/-- C8: with a non-empty contract cache, if both federation-initials
queries fail on every call, the contract list still assembles one label
per cache row, every label carries `[UNK]` in place of the initials, and
no exception escapes the initials lookup (the fetch returns `ok`). -/
theorem c8_unk_fallback (s : ContractCacheState)
    (wl : Nat → Except String (List String))
    (q1 q2 : Nat → Except String (List InitialsRow))
    (w : String) (ws : List String) (dirScan : Except String (List String))
    (hrows : s.rows ≠ [])
    (h1 : ∀ u, ∃ e, q1 u = Except.error e)
    (h2 : ∀ u, ∃ e, q2 u = Except.error e) :
    ∃ items, fetch_contract_photo_record_cache_lists s wl q1 q2
        (Except.ok (w :: ws)) dirScan = Except.ok (items, w :: ws)
      ∧ items.length = s.rows.length
      ∧ ∀ it ∈ items, ∃ pre post,
          it.game_contract_name = pre ++ "[UNK]" ++ post := by
  have hlen : ¬ s.rows.length = 0 := by simpa using hrows
  refine ⟨s.rows.map (assembleContractItem wl q1 q2), ?_, by simp, ?_⟩
  · unfold fetch_contract_photo_record_cache_lists
    rw [if_neg hlen]
  · intro it hit
    obtain ⟨c, hc, rfl⟩ := List.mem_map.mp hit
    obtain ⟨e1, he1⟩ := h1 c.game_contract_fedid
    obtain ⟨e2, he2⟩ := h2 c.game_contract_fedid
    refine ⟨fetch_worker_name_by_uid wl c.game_contract_worker_uid,
      "[" ++ c.game_contract_recordname ++ "]["
        ++ natToString c.game_contract_uid ++ "]", ?_⟩
    simp only [assembleContractItem, fetch_fed_initials, he1, he2,
      List.length_cons, List.length_nil]
    exact contract_label_unk_decomp _ _ _

/-- C8 witness. -/
theorem c8_unk_fallback_witness :
    ∃ items, fetch_contract_photo_record_cache_lists
        ⟨true, [⟨901, 3, "TitleMatch", 11, "x.png", "new"⟩], ["created"]⟩
        (fun _ => Except.ok ["Alice"])
        (fun _ => Except.error "driver error") (fun _ => Except.error "driver error")
        (Except.ok ("a.png" :: [])) (Except.error "no directory")
        = Except.ok (items, "a.png" :: [])
      ∧ items.length = 1
      ∧ ∀ it ∈ items, ∃ pre post,
          it.game_contract_name = pre ++ "[UNK]" ++ post := by
  have h := c8_unk_fallback
    ⟨true, [⟨901, 3, "TitleMatch", 11, "x.png", "new"⟩], ["created"]⟩
    (fun _ => Except.ok ["Alice"])
    (fun _ => Except.error "driver error") (fun _ => Except.error "driver error")
    "a.png" [] (Except.error "no directory") (by decide)
    (fun _ => ⟨"driver error", rfl⟩) (fun _ => ⟨"driver error", rfl⟩)
  exact h

/-- C9: the worker updater is keyed by the display name, not by a parsed
uid: whenever the filename normalizes, the update succeeds for an
arbitrary label string, rewrites the photo file of *every* cache row and
every authoritative row whose name equals that string (so two distinct
workers sharing a name are both updated), leaves all other rows unchanged,
and the name-keyed lookup afterwards returns the new filename. -/
theorem c9_worker_update_by_name (cache : List GameWorkerRow)
    (db : List TblWorkerRow) (wn nf : String) (g : Bool) (d : Option String)
    (uf : String) (r1 r2 : GameWorkerRow)
    (hnorm : normalize_photo_filename_std nf g d = Except.ok uf)
    (h1 : r1 ∈ cache) (h2 : r2 ∈ cache)
    (hn1 : r1.game_worker_name = wn) (hn2 : r2.game_worker_name = wn)
    (hne : r1.game_worker_uid ≠ r2.game_worker_uid) :
    ∃ c2 d2, update_worker_photo_filename cache db wn nf g d = Except.ok (c2, d2)
      ∧ c2.length = cache.length
      ∧ { r1 with game_worker_photo_file := uf } ∈ c2
      ∧ { r2 with game_worker_photo_file := uf } ∈ c2
      ∧ (∀ r ∈ cache, r.game_worker_name ≠ wn → r ∈ c2)
      ∧ (∀ x ∈ c2, x.game_worker_name = wn → x.game_worker_photo_file = uf)
      ∧ (∀ t ∈ db, t.Name = wn → { t with Picture := uf } ∈ d2)
      ∧ (∀ t ∈ db, t.Name ≠ wn → t ∈ d2)
      ∧ fetch_worker_filename_from_cache c2 wn = uf := by
  refine ⟨cache.map (fun r => if r.game_worker_name = wn then
      { r with game_worker_photo_file := uf } else r),
    db.map (fun t => if t.Name = wn then { t with Picture := uf } else t),
    ?_, by simp, ?_, ?_, ?_, ?_, ?_, ?_, ?_⟩
  · rw [update_worker_photo_filename, hnorm]
  · have := List.mem_map_of_mem (fun r => if r.game_worker_name = wn then
      { r with game_worker_photo_file := uf } else r) h1
    simpa [hn1] using this
  · have := List.mem_map_of_mem (fun r => if r.game_worker_name = wn then
      { r with game_worker_photo_file := uf } else r) h2
    simpa [hn2] using this
  · intro r hr hrn
    have := List.mem_map_of_mem (fun r => if r.game_worker_name = wn then
      { r with game_worker_photo_file := uf } else r) hr
    simpa [hrn] using this
  · intro x hx hxn
    obtain ⟨r, hr, rfl⟩ := List.mem_map.mp hx
    by_cases hrn : r.game_worker_name = wn
    · simp [hrn]
    · simp only [if_neg hrn] at hxn ⊢
      exact absurd hxn hrn
  · intro t ht htn
    have := List.mem_map_of_mem (fun t => if t.Name = wn then
      { t with Picture := uf } else t) ht
    simpa [htn] using this
  · intro t ht htn
    have := List.mem_map_of_mem (fun t => if t.Name = wn then
      { t with Picture := uf } else t) ht
    simpa [htn] using this
  · have hmem : { r1 with game_worker_photo_file := uf } ∈ cache.map
        (fun r => if r.game_worker_name = wn then
          { r with game_worker_photo_file := uf } else r) := by
      have := List.mem_map_of_mem (fun r => if r.game_worker_name = wn then
        { r with game_worker_photo_file := uf } else r) h1
      simpa [hn1] using this
    cases hfl : (cache.map (fun r => if r.game_worker_name = wn then
        { r with game_worker_photo_file := uf } else r)).filter
        (fun r => r.game_worker_name = wn) with
    | nil =>
      exfalso
      have hin : { r1 with game_worker_photo_file := uf } ∈
          (cache.map (fun r => if r.game_worker_name = wn then
            { r with game_worker_photo_file := uf } else r)).filter
            (fun r => r.game_worker_name = wn) :=
        List.mem_filter.mpr ⟨hmem, by simpa using hn1⟩
      rw [hfl] at hin
      exact absurd hin (List.not_mem_nil _)
    | cons a t =>
      have ha : a ∈ (cache.map (fun r => if r.game_worker_name = wn then
          { r with game_worker_photo_file := uf } else r)).filter
          (fun r => r.game_worker_name = wn) := by
        rw [hfl]; exact List.mem_cons_self a t
      obtain ⟨hac, hap⟩ := List.mem_filter.mp ha
      obtain ⟨r, hr, rfl⟩ := List.mem_map.mp hac
      rw [fetch_worker_filename_from_cache, hfl]
      by_cases hrn : r.game_worker_name = wn
      · simp [hrn]
      · simp only [if_neg hrn] at hap
        exact absurd (by simpa using hap) hrn

/-- C9 witness. -/
theorem c9_worker_update_by_name_witness :
    ∃ c2 d2, update_worker_photo_filename
        [⟨1, "Alice", "a.png", "new"⟩, ⟨2, "Alice", "b.png", "new"⟩,
          ⟨3, "Bob", "c.png", "new"⟩]
        [⟨1, "Alice", "a.png"⟩] "Alice" "portrait" false (some "png")
        = Except.ok (c2, d2)
      ∧ c2.length = 3
      ∧ ({ game_worker_uid := 1, game_worker_name := "Alice",
            game_worker_photo_file := "portrait.png",
            game_worker_photo_status := "new" } : GameWorkerRow) ∈ c2
      ∧ ({ game_worker_uid := 2, game_worker_name := "Alice",
            game_worker_photo_file := "portrait.png",
            game_worker_photo_status := "new" } : GameWorkerRow) ∈ c2
      ∧ fetch_worker_filename_from_cache c2 "Alice" = "portrait.png" := by
  obtain ⟨c2, d2, hu, hlen, hm1, hm2, _, _, _, _, hfetch⟩ :=
    c9_worker_update_by_name
      [⟨1, "Alice", "a.png", "new"⟩, ⟨2, "Alice", "b.png", "new"⟩,
        ⟨3, "Bob", "c.png", "new"⟩]
      [⟨1, "Alice", "a.png"⟩] "Alice" "portrait" false (some "png")
      "portrait.png" ⟨1, "Alice", "a.png", "new"⟩ ⟨2, "Alice", "b.png", "new"⟩
      (by rfl) (by decide) (by decide) rfl rfl (by decide)
  exact ⟨c2, d2, hu, hlen, hm1, hm2, hfetch⟩

/-- C10: for the contract, alter and ager kinds the init-time validity
check passes exactly when `skip_check` is unset, the kind's cache table
exists and it holds at least one row; the embedded checks take no
timestamp or max-age input because the source never queries the log table
there. Consequently, once such a cache is populated, init returns it
unchanged forever — no TTL ever forces a rebuild through this path. -/
theorem c10_kind_cache_checks :
    (∀ (sk te : Bool) (n : Nat),
      contract_photo_cache_check sk te n = (!sk && te && !(n == 0))
      ∧ alter_photo_cache_check sk te n = (!sk && te && !(n == 0))
      ∧ ager_photo_cache_check sk te n = (!sk && te && !(n == 0)))
    ∧ (∀ (s : ContractCacheState) (dbFetch : Except String (List TblContractRow)),
      s.cacheTableExists = true → s.rows ≠ [] →
        contract_photo_cache_init false s dbFetch = Except.ok s)
    ∧ (∀ (s : AlterCacheState) (dbFetch : Except String (List TblAlterRow)),
      s.cacheTableExists = true → s.rows ≠ [] →
        alter_photo_cache_init false s dbFetch = Except.ok s)
    ∧ (∀ (s : AgerCacheState) (dbFetch : Except String (List TblAgerRow)),
      s.cacheTableExists = true → s.rows ≠ [] →
        ager_photo_cache_init false s dbFetch = Except.ok s) := by
  refine ⟨?_, ?_, ?_, ?_⟩
  · intro sk te n
    refine ⟨?_, ?_, ?_⟩ <;>
      (cases sk <;> cases te <;>
        simp [contract_photo_cache_check, alter_photo_cache_check,
          ager_photo_cache_check] <;>
        by_cases hn : n = 0 <;> simp [hn])
  · intro s dbFetch hte hrows
    have hlen : ¬ s.rows.length = 0 := by simpa using hrows
    simp [contract_photo_cache_init, contract_photo_cache_check, hte, hlen]
  · intro s dbFetch hte hrows
    have hlen : ¬ s.rows.length = 0 := by simpa using hrows
    simp [alter_photo_cache_init, alter_photo_cache_check, hte, hlen]
  · intro s dbFetch hte hrows
    have hlen : ¬ s.rows.length = 0 := by simpa using hrows
    simp [ager_photo_cache_init, ager_photo_cache_check, hte, hlen]

/-- C10 witness: a populated contract cache is returned unchanged by init
even when the authoritative store is unreachable and regardless of any
notion of age. -/
theorem c10_kind_cache_checks_witness :
    contract_photo_cache_init false
        ⟨true, [⟨901, 3, "TitleMatch", 11, "x.png", "new"⟩], ["created"]⟩
        (Except.error "authoritative store unreachable")
      = Except.ok ⟨true, [⟨901, 3, "TitleMatch", 11, "x.png", "new"⟩], ["created"]⟩
      ∧ ager_photo_cache_check false true 5 = true := by
  constructor
  · exact c10_kind_cache_checks.2.1
      ⟨true, [⟨901, 3, "TitleMatch", 11, "x.png", "new"⟩], ["created"]⟩
      (Except.error "authoritative store unreachable") rfl (by decide)
  · exact (c10_kind_cache_checks.1 false true 5).2.2
